import Mathlib

/-!
Verification of the LG-RackandStack workflow (`src/src/agent/graph.py`).

The file shallowly embeds the Python module: JSON values become an inductive
`Json` type, Python builtin operations on dynamically typed values become
total Lean functions returning `Except String` where Python would raise
(`TypeError`, `AttributeError`, `KeyError`, ...), the HTTP adapters become
capability parameters, and each LangGraph node becomes a total function
`State → State` in which the node-level `try/except` is an explicit match on
the fallible part of the body.
-/

/-- JSON values, as produced by Python `json.loads`.  Floats do not occur in
any behaviour verified here, so numbers are modelled as integers. -/
inductive Json where
  | null
  | bool (b : Bool)
  | num (n : Int)
  | str (s : String)
  | arr (elems : List Json)
  | obj (fields : List (String × Json))
deriving Repr

mutual
/-- Structural equality test on `Json` (Python `==` on these values). -/
def Json.beq : Json → Json → Bool
  | Json.null, Json.null => true
  | Json.bool a, Json.bool b => a == b
  | Json.num a, Json.num b => a == b
  | Json.str a, Json.str b => a == b
  | Json.arr a, Json.arr b => Json.beqList a b
  | Json.obj a, Json.obj b => Json.beqObj a b
  | _, _ => false
/-- Elementwise equality test on JSON arrays. -/
def Json.beqList : List Json → List Json → Bool
  | [], [] => true
  | a :: as, b :: bs => Json.beq a b && Json.beqList as bs
  | _, _ => false
/-- Memberwise equality test on JSON objects. -/
def Json.beqObj : List (String × Json) → List (String × Json) → Bool
  | [], [] => true
  | (k1, v1) :: as, (k2, v2) :: bs => k1 == k2 && Json.beq v1 v2 && Json.beqObj as bs
  | _, _ => false
end

instance : BEq Json := ⟨Json.beq⟩

/-- Python truthiness (`bool(x)`) for JSON-shaped values: `None`, `False`,
`0`, `""`, `[]` and the empty dict are falsy, everything else truthy. -/
def pyTruthy : Json → Bool
  | Json.null => false
  | Json.bool b => b
  | Json.num n => decide (n ≠ 0)
  | Json.str s => decide (s ≠ "")
  | Json.arr xs => !xs.isEmpty
  | Json.obj kvs => !kvs.isEmpty

/-- Python substring test `needle in hay` for strings. -/
def pySubstr (needle hay : String) : Bool :=
  decide (needle = "") || decide ((hay.splitOn needle).length ≥ 2)

/-- Python `k in x` for a string key `k`: dict key membership, list element
membership, substring test on strings; raises `TypeError` otherwise. -/
def pyIn (k : String) (j : Json) : Except String Bool :=
  match j with
  | Json.obj kvs => Except.ok (kvs.lookup k).isSome
  | Json.arr xs => Except.ok (xs.contains (Json.str k))
  | Json.str t => Except.ok (pySubstr k t)
  | _ => Except.error "TypeError: argument of type is not iterable"

/-- Python `x[k]` for a string key `k`: dict lookup (`KeyError` when absent);
`TypeError` on lists/strings/other values. -/
def pyIndex (j : Json) (k : String) : Except String Json :=
  match j with
  | Json.obj kvs =>
    match kvs.lookup k with
    | some v => Except.ok v
    | none => Except.error ("KeyError: " ++ k)
  | _ => Except.error "TypeError: indices must be integers"

/-- Python `x[i]` for a nonnegative integer index. -/
def pyIndexNat (j : Json) (i : Nat) : Except String Json :=
  match j with
  | Json.arr xs =>
    match xs[i]? with
    | some v => Except.ok v
    | none => Except.error "IndexError: list index out of range"
  | Json.str t =>
    match t.toList[i]? with
    | some c => Except.ok (Json.str c.toString)
    | none => Except.error "IndexError: string index out of range"
  | Json.obj _ => Except.error "KeyError: 0"
  | _ => Except.error "TypeError: object is not subscriptable"

/-- Python `x.get(k, d)`: only dicts have `.get`; anything else raises
`AttributeError`. -/
def pyDictGet (j : Json) (k : String) (d : Json) : Except String Json :=
  match j with
  | Json.obj kvs => Except.ok ((kvs.lookup k).getD d)
  | _ => Except.error "AttributeError: object has no attribute get"

/-- `x.get(k, d)` for values that are dicts by construction (used only where
the receiver is a dict built by this module itself, so `.get` cannot raise). -/
def objGetD (j : Json) (k : String) (d : Json) : Json :=
  match j with
  | Json.obj kvs => (kvs.lookup k).getD d
  | _ => d

/-- Lookup of a key in a JSON object, `none` when the value is not an object. -/
def objLookup (j : Json) (k : String) : Option Json :=
  match j with
  | Json.obj kvs => kvs.lookup k
  | _ => none

/-- Whether a JSON value is an object (a Python dict). -/
def Json.isObj : Json → Bool
  | Json.obj _ => true
  | _ => false

/-- Python `for x in j`: lists yield elements, strings yield one-character
strings, dicts yield their keys; other values raise `TypeError`. -/
def pyIter : Json → Except String (List Json)
  | Json.arr xs => Except.ok xs
  | Json.str t => Except.ok (t.toList.map (fun c => Json.str c.toString))
  | Json.obj kvs => Except.ok (kvs.map (fun p => Json.str p.1))
  | _ => Except.error "TypeError: object is not iterable"

/-- Python `len(j)`: defined for strings, lists and dicts. -/
def pyLen : Json → Except String Nat
  | Json.arr xs => Except.ok xs.length
  | Json.str t => Except.ok t.length
  | Json.obj kvs => Except.ok kvs.length
  | _ => Except.error "TypeError: object has no len"

/- Python `repr` on JSON-shaped values.  Python renders strings inside
containers with single quotes; the quote character is irrelevant to every
property proved in this file (only `str.isdigit` ever inspects these
renderings), so double quotes are used. -/
mutual
/-- Model of Python `repr` on JSON-shaped values. -/
def pyRepr : Json → String
  | Json.null => "None"
  | Json.bool true => "True"
  | Json.bool false => "False"
  | Json.num n => toString n
  | Json.str s => "\"" ++ s ++ "\""
  | Json.arr xs => "[" ++ pyReprList xs ++ "]"
  | Json.obj kvs => "\x7b" ++ pyReprObj kvs ++ "\x7d"
/-- Comma-separated reprs of array elements. -/
def pyReprList : List Json → String
  | [] => ""
  | [x] => pyRepr x
  | x :: y :: xs => pyRepr x ++ ", " ++ pyReprList (y :: xs)
/-- Comma-separated reprs of object members. -/
def pyReprObj : List (String × Json) → String
  | [] => ""
  | [(k, v)] => "\"" ++ k ++ "\": " ++ pyRepr v
  | (k, v) :: p :: kvs => "\"" ++ k ++ "\": " ++ pyRepr v ++ ", " ++ pyReprObj (p :: kvs)
end

/-- Python `str(j)`: identity on strings, `repr` otherwise. -/
def pyStr : Json → String
  | Json.str s => s
  | j => pyRepr j

/- Python `json.dumps` with the default separators `", "` and `": "`.
String escaping is not modelled (no serialized value in this development
contains a character that needs escaping). -/
mutual
/-- Model of Python `json.dumps`. -/
def pyJsonDumps : Json → String
  | Json.null => "null"
  | Json.bool true => "true"
  | Json.bool false => "false"
  | Json.num n => toString n
  | Json.str s => "\"" ++ s ++ "\""
  | Json.arr xs => "[" ++ pyJsonDumpsList xs ++ "]"
  | Json.obj kvs => "\x7b" ++ pyJsonDumpsObj kvs ++ "\x7d"
/-- Serialized array elements. -/
def pyJsonDumpsList : List Json → String
  | [] => ""
  | [x] => pyJsonDumps x
  | x :: y :: xs => pyJsonDumps x ++ ", " ++ pyJsonDumpsList (y :: xs)
/-- Serialized object members. -/
def pyJsonDumpsObj : List (String × Json) → String
  | [] => ""
  | [(k, v)] => "\"" ++ k ++ "\": " ++ pyJsonDumps v
  | (k, v) :: p :: kvs => "\"" ++ k ++ "\": " ++ pyJsonDumps v ++ ", " ++ pyJsonDumpsObj (p :: kvs)
end

/-- Python `str.isdigit` (restricted to ASCII digits, the only characters
appearing in the verified behaviours). -/
def pyIsdigit (s : String) : Bool :=
  !s.toList.isEmpty && s.toList.all Char.isDigit

/-- Value of a nonempty all-digit string, as computed by Python `int(s)`. -/
def digitsToInt (s : String) : Int :=
  Int.ofNat (s.toList.foldl (fun a c => a * 10 + (c.toNat - 48)) 0)

/-- Python dict assignment `d[k] = v` on an association list: overwrite in
place when the key exists, append otherwise. -/
def dictSet (kvs : List (String × Json)) (k : String) (v : Json) : List (String × Json) :=
  if kvs.any (fun p => p.1 == k) then
    kvs.map (fun p => if p.1 == k then (k, v) else p)
  else
    kvs ++ [(k, v)]

/-! ### A small JSON parser modelling Python `json.loads`.

The modelled grammar covers objects, arrays, strings (with the common
escapes), integers, `true`, `false` and `null` — every shape of input the
workflow is exercised on.  Floats, exponents and `\uXXXX` escapes are not
modelled. -/

/-- Skip JSON whitespace. -/
def skipWs : List Char → List Char
  | [] => []
  | c :: cs => if c = ' ' || c = '\t' || c = '\n' || c = '\r' then skipWs cs else c :: cs

/-- Parse the body of a string literal after the opening quote. -/
def parseStrBody : List Char → String → Option (String × List Char)
  | [], _ => none
  | '"' :: rest, acc => some (acc, rest)
  | '\\' :: c :: rest, acc =>
    if c = '"' then parseStrBody rest (acc.push '"')
    else if c = '\\' then parseStrBody rest (acc.push '\\')
    else if c = '/' then parseStrBody rest (acc.push '/')
    else if c = 'n' then parseStrBody rest (acc.push '\n')
    else if c = 't' then parseStrBody rest (acc.push '\t')
    else if c = 'r' then parseStrBody rest (acc.push '\r')
    else none
  | c :: rest, acc => if c = '\\' || c = '"' then none else parseStrBody rest (acc.push c)

/-- Take a maximal run of digits. -/
def takeDigits : List Char → List Char × List Char
  | [] => ([], [])
  | c :: cs =>
    if c.isDigit then
      let p := takeDigits cs
      (c :: p.1, p.2)
    else ([], c :: cs)

/-- Numeric value of a digit run. -/
def digitsVal (ds : List Char) : Nat :=
  ds.foldl (fun a c => a * 10 + (c.toNat - 48)) 0

/-- Python keeps the last value for a duplicated object key (at the position
of the first occurrence); `rest` is already deduplicated. -/
def objInsert (k : String) (v : Json) (rest : List (String × Json)) : List (String × Json) :=
  match rest.lookup k with
  | some v2 => (k, v2) :: rest.filter (fun p => !(p.1 == k))
  | none => (k, v) :: rest

mutual
/-- Parse one JSON value (fueled recursion; the fuel chosen by `jsonLoads`
always suffices for the nesting depth of its input). -/
def parseJ : Nat → List Char → Option (Json × List Char)
  | 0, _ => none
  | fuel + 1, cs =>
    match skipWs cs with
    | 'n' :: 'u' :: 'l' :: 'l' :: rest => some (Json.null, rest)
    | 't' :: 'r' :: 'u' :: 'e' :: rest => some (Json.bool true, rest)
    | 'f' :: 'a' :: 'l' :: 's' :: 'e' :: rest => some (Json.bool false, rest)
    | '"' :: rest =>
      match parseStrBody rest "" with
      | some (s, rest2) => some (Json.str s, rest2)
      | none => none
    | '[' :: rest =>
      (match skipWs rest with
       | ']' :: rest2 => some (Json.arr [], rest2)
       | _ =>
         match parseArrItems fuel (skipWs rest) with
         | some (xs, rest2) => some (Json.arr xs, rest2)
         | none => none)
    | '\x7b' :: rest =>
      (match skipWs rest with
       | '\x7d' :: rest2 => some (Json.obj [], rest2)
       | _ =>
         match parseObjItems fuel (skipWs rest) with
         | some (kvs, rest2) => some (Json.obj kvs, rest2)
         | none => none)
    | '-' :: rest =>
      (match takeDigits rest with
       | ([], _) => none
       | (ds, rest2) => some (Json.num (-(Int.ofNat (digitsVal ds))), rest2))
    | c :: rest =>
      if c.isDigit then
        match takeDigits (c :: rest) with
        | (ds, rest2) => some (Json.num (Int.ofNat (digitsVal ds)), rest2)
      else none
    | [] => none

/-- Parse the elements of a nonempty array after the opening bracket. -/
def parseArrItems : Nat → List Char → Option (List Json × List Char)
  | 0, _ => none
  | fuel + 1, cs =>
    match parseJ fuel cs with
    | none => none
    | some (v, rest) =>
      match skipWs rest with
      | ',' :: rest2 =>
        (match parseArrItems fuel (skipWs rest2) with
         | some (xs, rest3) => some (v :: xs, rest3)
         | none => none)
      | ']' :: rest2 => some ([v], rest2)
      | _ => none

/-- Parse the members of a nonempty object after the opening brace. -/
def parseObjItems : Nat → List Char → Option (List (String × Json) × List Char)
  | 0, _ => none
  | fuel + 1, cs =>
    match skipWs cs with
    | '"' :: rest =>
      (match parseStrBody rest "" with
       | none => none
       | some (k, rest2) =>
         match skipWs rest2 with
         | ':' :: rest3 =>
           (match parseJ fuel (skipWs rest3) with
            | none => none
            | some (v, rest4) =>
              match skipWs rest4 with
              | ',' :: rest5 =>
                (match parseObjItems fuel rest5 with
                 | some (kvs, rest6) => some (objInsert k v kvs, rest6)
                 | none => none)
              | '\x7d' :: rest5 => some ([(k, v)], rest5)
              | _ => none)
         | _ => none)
    | _ => none
end

/-- Python `json.loads`: parse a full JSON document; trailing content (after
whitespace) is an error, as is any unparsable prefix. -/
def jsonLoads (input : String) : Except String Json :=
  let cs := input.toList
  match parseJ (2 * cs.length + 4) cs with
  | some (v, rest) => if skipWs rest = [] then Except.ok v else Except.error "Extra data"
  | none => Except.error "Expecting value"

/-! ### Configuration (environment variables, `graph.py` lines 35-49)

`os.getenv` yields `None` for an unset variable; `validate_environment`
treats unset and empty identically (`if not os.getenv(var)`), so every
variable is modelled as a `String` with `""` standing for unset. -/

/-- Environment-derived configuration. -/
structure Config where
  ESFUSE_TOKEN : String := ""
  LOAN_API_BASE_URL : String := ""
  DOC_API_BASE_URL : String := ""
  ENCOMPASS_BASE_URL : String := ""
  ENCOMPASS_ACCESS_TOKEN : String := ""
  TASKDOC_API_TOKEN : String := ""
  TASKDOC_AUTH_TOKEN : String := ""
  SUBMISSION_TYPE : String := "Initial Submission"
  AUTO_LOCK : Bool := false

/-- The `required_vars` list of `validate_environment` (lines 54-62), paired
with the configured values, in source order. -/
def requiredEnvVars (cfg : Config) : List (String × String) :=
  [("ESFUSE_TOKEN", cfg.ESFUSE_TOKEN),
   ("LOAN_API_BASE_URL", cfg.LOAN_API_BASE_URL),
   ("DOC_API_BASE_URL", cfg.DOC_API_BASE_URL),
   ("ENCOMPASS_BASE_URL", cfg.ENCOMPASS_BASE_URL),
   ("ENCOMPASS_ACCESS_TOKEN", cfg.ENCOMPASS_ACCESS_TOKEN),
   ("TASKDOC_API_TOKEN", cfg.TASKDOC_API_TOKEN),
   ("TASKDOC_AUTH_TOKEN", cfg.TASKDOC_AUTH_TOKEN)]

/-- Names of required variables that are unset, in source order
(lines 64-67). -/
def missingVars (cfg : Config) : List String :=
  (requiredEnvVars cfg).filterMap (fun p => if p.2 = "" then some p.1 else none)

/-- `validate_environment` (lines 52-72): raises `ValueError` naming every
missing variable, joined by a comma, when any required variable is unset. -/
def validate_environment (cfg : Config) : Except String Unit :=
  if missingVars cfg = [] then Except.ok ()
  else
    Except.error ("Missing required environment variables: " ++
      String.intercalate ", " (missingVars cfg))

/-! ### Workflow state (`class State`, lines 216-247) -/

/-- The pydantic `State` model.  `Dict[str, Any]`-typed fields hold arbitrary
JSON after node assignments (pydantic does not re-validate assignments), so
they are modelled as `Json`; `field_updates` keeps the dict insertion order
as an association list. -/
@[ext] structure State where
  user_input : String := ""
  current_node : Nat := 0
  status : String := ""
  loan_id : String := ""
  task_id : String := ""
  client_id : String := ""
  document_ids : String := ""
  documents_stored : String := ""
  documents_processed : String := ""
  loan_data : Json := Json.obj []
  documents_stored_list : List Json := []
  field_updates : List (String × Json) := []
  pull_data_result : Json := Json.obj []
  pull_doc_results : List Json := []
  push_data_result : Json := Json.obj []
  push_doc_result : Json := Json.obj []
  workflow_summary : Json := Json.obj []
deriving Repr

/-- The state a run starts from: the entry point supplies only
`user_input`; every other field takes its pydantic default. -/
def State.init (input : String) : State := { user_input := input }

/-! ### HTTP capabilities

The adapters' own HTTP calls (`aiohttp`) are the external boundary.  A
response carries the status code, the outcome of `response.json()`
(`Except.error` when the body is not JSON, in which case Python raises),
the text body, whether `content_length` is truthy, and the byte length of
the raw body.  A transport failure (or timeout) is `Except.error` at the
capability itself, modelling the raised exception. -/

/-- One HTTP response. -/
structure HttpResponse where
  status : Nat := 200
  jsonBody : Except String Json := Except.ok (Json.obj [])
  text : String := ""
  content_length : Bool := true
  bodyLen : Nat := 0

/-- A GET capability. -/
def GetCap : Type := String → Except String HttpResponse

/-- A POST capability (url, JSON request body). -/
def PostCap : Type := String → Json → Except String HttpResponse

/-- Arguments the push-submission node passes to
`doc_agent.ESFuse.push_doc` (lines 617-632). -/
structure PushDocArgs where
  client_id : String
  direct_loan_id : String
  submission_type : String
  auto_lock : Bool
  taskdoc_api_token : String
  taskdoc_auth_token : String
  doc_id : List Json
  token : String
  api_base : String

/-- The external `doc_agent.ESFuse.push_doc` capability (the `cuteagent`
library); it may return any JSON value or raise. -/
def PushDocCap : Type := PushDocArgs → Except String Json

/-! ### Async API helpers (lines 80-210) -/

/-- URL built by `async_pull_loan_data` (line 83). -/
def loanUrl (base client_id loan_id : String) : String :=
  base ++ "/loan?clientId=" ++ client_id ++ "&loanId=" ++ loan_id

/-- `async_pull_loan_data` (lines 80-125).  Its `try/except` catches every
internal failure, so the helper itself is total: transport errors and
non-JSON 200-bodies become `success: False` dictionaries. -/
def async_pull_loan_data (get : GetCap) (client_id loan_id esfuse_token get_api_base : String) : Json :=
  let api_url := loanUrl get_api_base client_id loan_id
  match get api_url with
  | Except.error e =>
    Json.obj [("success", Json.bool false),
              ("error", Json.str ("API request failed: " ++ e))]
  | Except.ok resp =>
    if resp.status = 200 then
      match resp.jsonBody with
      | Except.error e =>
        Json.obj [("success", Json.bool false),
                  ("error", Json.str ("API request failed: " ++ e))]
      | Except.ok raw =>
        let parsed0 : List (String × Json) :=
          [("client_id", Json.str client_id), ("loan_id", Json.str loan_id),
           ("api_url", Json.str api_url), ("status", Json.str "success")]
        let parsed : List (String × Json) :=
          match raw with
          | Json.obj kvs =>
            let p1 := parsed0 ++ [("raw_keys", Json.arr (kvs.map (fun kv => Json.str kv.1)))]
            let p2 := match kvs.lookup "clientId" with
                      | some v => p1 ++ [("response_client_id", v)]
                      | none => p1
            match kvs.lookup "loanId" with
            | some v => p2 ++ [("response_loan_id", v)]
            | none => p2
          | _ => parsed0
        Json.obj [("success", Json.bool true), ("raw", raw), ("parsed", Json.obj parsed),
                  ("api_url", Json.str api_url), ("client_id", Json.str client_id),
                  ("loan_id", Json.str loan_id)]
    else
      Json.obj [("success", Json.bool false),
                ("error", Json.str ("API call failed with status " ++ toString resp.status ++ ": " ++ resp.text)),
                ("api_url", Json.str api_url)]

/-- URL built by `async_pull_doc_data` (line 130). -/
def docUrl (base client_id doc_id : String) : String :=
  base ++ "/doc?clientId=" ++ client_id ++ "&docId=" ++ doc_id

/-- `async_pull_doc_data` (lines 127-170): a 200 response is classified as
JSON (full decoded body) or binary (byte length only); failures carry the
status code; transport errors are caught by its own `except`. -/
def async_pull_doc_data (get : GetCap) (api_base token client_id doc_id : String) : Json :=
  let api_url := docUrl api_base client_id doc_id
  match get api_url with
  | Except.error e =>
    Json.obj [("success", Json.bool false), ("error", Json.str ("Request failed: " ++ e))]
  | Except.ok resp =>
    if resp.status = 200 then
      match resp.jsonBody with
      | Except.ok rd =>
        Json.obj [("success", Json.bool true), ("response_type", Json.str "json"),
                  ("response_data", rd), ("api_url", Json.str api_url),
                  ("client_id", Json.str client_id), ("doc_id", Json.str doc_id)]
      | Except.error _ =>
        Json.obj [("success", Json.bool true), ("response_type", Json.str "pdf"),
                  ("file_size", Json.num (Int.ofNat resp.bodyLen)),
                  ("api_url", Json.str api_url), ("client_id", Json.str client_id),
                  ("doc_id", Json.str doc_id)]
    else
      Json.obj [("success", Json.bool false),
                ("error", Json.str ("API request failed with status " ++ toString resp.status)),
                ("response_text", Json.str resp.text),
                ("status_code", Json.num (Int.ofNat resp.status))]

/-- URL built by `async_push_data` (line 182). -/
def writeLoanUrl (base_url access_token : String) : String :=
  base_url ++ "/api/v1/write_loan_data?token=" ++ access_token

/-- Request body built by `async_push_data` (lines 183-186): the field
updates are nested as a JSON-encoded string under `json_data`. -/
def pushDataBody (field_updates : List (String × Json)) (loan_id : String) : Json :=
  Json.obj [("encompass_loan_guid", Json.str loan_id),
            ("json_data", Json.str (pyJsonDumps (Json.obj field_updates)))]

/-- `async_push_data` (lines 172-210): POSTs the body; on 200 parses the
response body only when `content_length` is truthy; all failures (including
a raising `response.json()`) are caught and become `success: False`. -/
def async_push_data (post : PostCap) (field_updates : List (String × Json))
    (client_id loan_id get_api_base esfuse_token base_url access_token : String) : Json :=
  let url := writeLoanUrl base_url access_token
  match post url (pushDataBody field_updates loan_id) with
  | Except.error e =>
    Json.obj [("success", Json.bool false), ("error", Json.str ("Push data error: " ++ e))]
  | Except.ok resp =>
    if resp.status = 200 then
      match (if resp.content_length then resp.jsonBody.map some else Except.ok none) with
      | Except.error e =>
        Json.obj [("success", Json.bool false), ("error", Json.str ("Push data error: " ++ e))]
      | Except.ok rd =>
        Json.obj [("success", Json.bool true), ("encompass_loan_guid", Json.str loan_id),
                  ("fields_updated", Json.arr (field_updates.map (fun kv => Json.str kv.1))),
                  ("response", match rd with | some j => j | none => Json.null),
                  ("status_code", Json.num 200)]
    else
      Json.obj [("success", Json.bool false),
                ("error", Json.str ("Encompass API request failed with status " ++ toString resp.status)),
                ("response_text", Json.str resp.text),
                ("status_code", Json.num (Int.ofNat resp.status))]

/-! ### Node 1: `extract_input_fields` (lines 262-324)

The six string-field blocks (lines 281-303) each test `k in input_data` and
then assign `str(input_data[k])` to a distinct state field; the
`field_updates` block additionally requires the value to be a dict.  When
`input_data` is a dict none of these operations can raise and the blocks are
independent (distinct fields, shared immutable `input_data`), so they are
translated as one parallel record update.  When `input_data` is not a dict
(a JSON document that is a list, string, number, boolean or null), the first
`k in input_data` that succeeds forces `input_data[k]`, which raises
`TypeError` before any assignment; membership on a non-container raises
immediately.  The node-level `except` then fires with the state unchanged. -/

/-- The seven recognised keys, in source order. -/
def extractKeys : List String :=
  ["loan_id", "task_id", "client_id", "document_ids",
   "documents_stored", "documents_processed", "field_updates"]

/-- The allow-listed extraction applied to a decoded input dict. -/
def applyObj (kvs : List (String × Json)) (s : State) : State :=
  { s with
    loan_id := match kvs.lookup "loan_id" with
               | some v => pyStr v
               | none => s.loan_id,
    task_id := match kvs.lookup "task_id" with
               | some v => pyStr v
               | none => s.task_id,
    client_id := match kvs.lookup "client_id" with
                 | some v => pyStr v
                 | none => s.client_id,
    document_ids := match kvs.lookup "document_ids" with
                    | some v => pyStr v
                    | none => s.document_ids,
    documents_stored := match kvs.lookup "documents_stored" with
                        | some v => pyStr v
                        | none => s.documents_stored,
    documents_processed := match kvs.lookup "documents_processed" with
                           | some v => pyStr v
                           | none => s.documents_processed,
    field_updates := match kvs.lookup "field_updates" with
                     | some (Json.obj fs) => fs.map (fun kv => (kv.1, Json.str (pyStr kv.2)))
                     | _ => s.field_updates }

/-- The extraction body over an arbitrary decoded document (lines 281-307),
with Python dynamic-typing failure modes made explicit. -/
def extractFrom (d : Json) (s : State) : Except String State :=
  match d with
  | Json.obj kvs => Except.ok (applyObj kvs s)
  | Json.str t =>
    if extractKeys.any (fun k => pySubstr k t) then
      Except.error "TypeError: string indices must be integers"
    else Except.ok s
  | Json.arr xs =>
    if extractKeys.any (fun k => xs.contains (Json.str k)) then
      Except.error "TypeError: list indices must be integers"
    else Except.ok s
  | _ => Except.error "TypeError: argument of type is not iterable"

/-- `extract_input_fields` (lines 262-324).  `validate_environment` runs
inside the node-level `try`, so a missing-configuration `ValueError` is
caught here and recorded as `status="Error"` (the run is not aborted). -/
def extract_input_fields (cfg : Config) (s : State) : State :=
  match validate_environment cfg with
  | Except.error _ => { s with current_node := 1, status := "Error" }
  | Except.ok _ =>
    if s.user_input ≠ "" then
      let input_data : Json :=
        match jsonLoads s.user_input with
        | Except.ok j => j
        | Except.error _ => Json.obj []
      match extractFrom input_data s with
      | Except.ok s2 => { s2 with status := "Success", current_node := 1 }
      | Except.error _ => { s with current_node := 1, status := "Error" }
    else
      { s with status := "Error",
               loan_data := Json.obj [("error", Json.str "No user_input provided")],
               current_node := 1 }

/-! ### Node 2: `pull_data_node` (lines 326-439) -/

/-- One guarded mapping step (for example lines 375-377): when
`src.get(key)` is truthy, assign it under `fieldId`. -/
def addIfTruthy (src : Json) (key fieldId : String)
    (fu : List (String × Json)) : Except String (List (String × Json)) := do
  let v ← pyDictGet src key Json.null
  if pyTruthy v then pure (dictSet fu fieldId v) else pure fu

/-- The main-borrower search loop (lines 364-368): first borrower whose
`main_borrower` is truthy. -/
def findMain : List Json → Except String (Option Json)
  | [] => Except.ok none
  | b :: bs => do
    let f ← pyDictGet b "main_borrower" (Json.bool false)
    if pyTruthy f then pure (some b) else findMain bs

/-- Borrower-field mapping (lines 375-397). -/
def deriveFromBorrower (mb : Json) (fu : List (String × Json)) :
    Except String (List (String × Json)) := do
  let fu ← addIfTruthy mb "first_name" "4000" fu
  let fu ← addIfTruthy mb "middle_name" "4001" fu
  let fu ← addIfTruthy mb "last_name" "4002" fu
  let fu ← addIfTruthy mb "email" "1204" fu
  let fu ← addIfTruthy mb "ssn" "65" fu
  addIfTruthy mb "date_of_birth" "1402" fu

/-- The borrower block (lines 361-397), starting from the empty
`field_updates` dict of line 358: when `borrowers_attributes` is truthy,
select the main borrower (or `borrowers[0]` when none is flagged) and map
its fields.  The two discarded `get`s model the borrower-name progress log
(line 372), whose `.get` raises on a non-dict borrower. -/
def deriveBorrowerPart (borrowers : Json) : Except String (List (String × Json)) :=
  if pyTruthy borrowers then do
    let items ← pyIter borrowers
    let mOpt ← findMain items
    let mb ← match mOpt with
             | some b => pure b
             | none => pyIndexNat borrowers 0
    let _ ← pyDictGet mb "first_name" Json.null
    let _ ← pyDictGet mb "last_name" Json.null
    deriveFromBorrower mb []
  else pure []

/-- The parse of `loaninfo` into a field-update mapping (lines 357-416):
borrower fields first, then the property/address fields (lines 400-416). -/
def deriveFieldUpdates (li : Json) : Except String (List (String × Json)) := do
  let borrowers ← pyDictGet li "borrowers_attributes" (Json.arr [])
  let fu ← deriveBorrowerPart borrowers
  let fu ← addIfTruthy li "address1" "FR0126" fu
  let fu ← addIfTruthy li "city" "FR0106" fu
  let fu ← addIfTruthy li "state" "FR0107" fu
  addIfTruthy li "zip_code" "FR0108" fu

/-- `pull_data_node` (lines 326-439).  On adapter success the result is
stored (lines 347-348) before the raw payload is parsed, so the stored
result survives a parse failure; the node-level `except` (lines 434-438)
sets `current_node=2`, `status="Error"` and an error payload in
`loan_data`. -/
def pull_data_node (get : GetCap) (cfg : Config) (s : State) : State :=
  let result := async_pull_loan_data get s.client_id s.loan_id cfg.ESFUSE_TOKEN cfg.LOAN_API_BASE_URL
  match pyDictGet result "success" (Json.bool false) with
  | Except.error e =>
    { s with current_node := 2, status := "Error", loan_data := Json.obj [("error", Json.str e)] }
  | Except.ok success =>
    if pyTruthy success then
      let s1 := { s with pull_data_result := result, loan_data := result }
      match (do
          let raw ← pyDictGet result "raw" (Json.obj [])
          let c ← if pyTruthy raw then pyIn "loaninfo" raw else pure false
          if c then do
            let li ← pyIndex raw "loaninfo"
            let fu ← deriveFieldUpdates li
            pure (some fu)
          else pure (none : Option (List (String × Json)))) with
      | Except.ok (some fu) =>
        { s1 with field_updates := fu, status := "Success", current_node := 2 }
      | Except.ok none =>
        { s1 with status := "Success", current_node := 2 }
      | Except.error e =>
        { s1 with current_node := 2, status := "Error", loan_data := Json.obj [("error", Json.str e)] }
    else
      match pyDictGet result "error" (Json.str "Unknown error") with
      | Except.error e =>
        { s with current_node := 2, status := "Error", loan_data := Json.obj [("error", Json.str e)] }
      | Except.ok errv =>
        { s with status := "Error",
                 pull_data_result := Json.obj [("error", errv)],
                 loan_data := Json.obj [("error", errv)],
                 current_node := 2 }

/-! ### `pull_doc_node` (lines 441-519)

This node exists in the source but is **not** part of the compiled graph:
its `add_node`/`add_edge` lines (723, 731) are commented out. -/

/-- Per-document processing of the pull-documents loop (lines 451-487).
Every `.get` here is applied to a dict built by `async_pull_doc_data`
itself, so the total `objGetD` is exact. -/
def processDoc (get : GetCap) (cfg : Config) (client_id : String) (doc_id : Json) : Json :=
  let result := async_pull_doc_data get cfg.DOC_API_BASE_URL cfg.ESFUSE_TOKEN client_id (pyStr doc_id)
  if pyTruthy (objGetD result "success" (Json.bool false)) then
    let base : List (String × Json) :=
      [("doc_id", doc_id), ("response_type", objGetD result "response_type" Json.null),
       ("api_url", objGetD result "api_url" Json.null),
       ("client_id", objGetD result "client_id" Json.null),
       ("success", Json.bool true)]
    if objGetD result "response_type" Json.null == Json.str "json" then
      Json.obj (base ++ [("response_data", objGetD result "response_data" (Json.obj []))])
    else if objGetD result "response_type" Json.null == Json.str "pdf" then
      Json.obj (base ++ [("file_size", objGetD result "file_size" Json.null)])
    else Json.obj base
  else
    Json.obj [("doc_id", doc_id),
              ("error", objGetD result "error" (Json.str "Unknown error")),
              ("success", Json.bool false)]

/-- `pull_doc_node` (lines 441-519).  The discarded `pyLen` models the
progress log `len(doc_ids)` (line 448), which raises `TypeError` on an
unsized decoded value; `json.JSONDecodeError` is not caught locally, so a
malformed `document_ids` reaches the node-level `except` (current_node=2)
before any per-document work. -/
def pull_doc_node (get : GetCap) (cfg : Config) (now : String) (s : State) : State :=
  if s.document_ids ≠ "" then
    match (do
        let j ← jsonLoads s.document_ids
        let _ ← pyLen j
        pyIter j) with
    | Except.error e =>
      { s with current_node := 2, status := "Error", loan_data := Json.obj [("error", Json.str e)] }
    | Except.ok doc_ids =>
      let all := doc_ids.map (processDoc get cfg s.client_id)
      let succ := all.filter (fun d => pyTruthy (objGetD d "success" (Json.bool false)))
      let failed := all.filter (fun d => !pyTruthy (objGetD d "success" (Json.bool false)))
      let output := Json.obj
        [("loan_id", Json.str s.loan_id), ("client_id", Json.str s.client_id),
         ("task_id", Json.str s.task_id), ("status", Json.str s.status),
         ("total_documents", Json.num (Int.ofNat doc_ids.length)),
         ("successful_pulls", Json.num (Int.ofNat succ.length)),
         ("failed_pulls", Json.num (Int.ofNat failed.length)),
         ("documents", Json.arr all), ("timestamp", Json.str now)]
      { s with pull_doc_results := all, documents_stored_list := all,
               loan_data := output, status := "Success", current_node := 3 }
  else
    { s with status := "Error",
             loan_data := Json.obj [("error", Json.str "No document_ids provided")],
             current_node := 3 }

/-! ### Node 3: `push_data_node` (lines 521-575) -/

/-- Line 525: the mapping actually pushed — the state's `field_updates`, or
the hardcoded placeholder when it is empty (Python dict truthiness). -/
def effectiveFieldUpdates (s : State) : List (String × Json) :=
  if s.field_updates.isEmpty then [("4000", Json.str "DefaultTestValue")]
  else s.field_updates

/-- `push_data_node` (lines 521-575). -/
def push_data_node (post : PostCap) (cfg : Config) (s : State) : State :=
  let field_updates := effectiveFieldUpdates s
  let result := async_push_data post field_updates s.client_id s.loan_id
    cfg.LOAN_API_BASE_URL cfg.ESFUSE_TOKEN cfg.ENCOMPASS_BASE_URL cfg.ENCOMPASS_ACCESS_TOKEN
  match pyDictGet result "success" (Json.bool false) with
  | Except.error e =>
    { s with current_node := 3, status := "Error", loan_data := Json.obj [("error", Json.str e)] }
  | Except.ok success =>
    if pyTruthy success then
      { s with push_data_result := result, loan_data := result,
               status := "Success", current_node := 4 }
    else
      match pyDictGet result "error" (Json.str "Unknown error") with
      | Except.error e =>
        { s with current_node := 3, status := "Error", loan_data := Json.obj [("error", Json.str e)] }
      | Except.ok errv =>
        { s with status := "Error",
                 push_data_result := Json.obj [("error", errv)],
                 loan_data := Json.obj [("error", errv)],
                 current_node := 4 }

/-! ### Node 4: `push_doc_node` (lines 577-670) -/

/-- The document-id parse of the push-submission node (lines 588-597):
decoded sequences have numeric-looking entries coerced with
`int(doc_id) if str(doc_id).isdigit() else doc_id`; a `JSONDecodeError`
falls back to `[state.document_ids]` (the raw string); an empty
`document_ids` falls back to `[953]`.  Iterating a decoded non-sequence
raises `TypeError`, which the local `except json.JSONDecodeError` does not
catch. -/
def coerceDocId (v : Json) : Json :=
  if pyIsdigit (pyStr v) then Json.num (digitsToInt (pyStr v)) else v

/-- The `doc_ids` value computed by lines 588-597. -/
def pushDocIds (s : State) : Except String (List Json) :=
  if s.document_ids ≠ "" then
    match jsonLoads s.document_ids with
    | Except.ok j => (pyIter j).map (fun xs => xs.map coerceDocId)
    | Except.error _ => Except.ok [Json.str s.document_ids]
  else Except.ok [Json.num 953]

/-- `push_doc_node` (lines 577-670).  The chain of discarded `get`s in the
success branch models the diagnostic logging (lines 640-652), whose `.get`
calls raise on non-dict values returned by the external library; they run
after `push_doc_result` has been assigned (lines 637-638). -/
def push_doc_node (cap : PushDocCap) (cfg : Config) (s : State) : State :=
  match (do
      let ids ← pushDocIds s
      cap { client_id := s.client_id, direct_loan_id := s.loan_id,
            submission_type := cfg.SUBMISSION_TYPE, auto_lock := cfg.AUTO_LOCK,
            taskdoc_api_token := cfg.TASKDOC_API_TOKEN,
            taskdoc_auth_token := cfg.TASKDOC_AUTH_TOKEN,
            doc_id := ids, token := cfg.ESFUSE_TOKEN,
            api_base := cfg.DOC_API_BASE_URL }) with
  | Except.error e =>
    { s with current_node := 4, status := "Error", loan_data := Json.obj [("error", Json.str e)] }
  | Except.ok result =>
    match pyDictGet result "success" (Json.bool false) with
    | Except.error e =>
      { s with current_node := 4, status := "Error", loan_data := Json.obj [("error", Json.str e)] }
    | Except.ok success =>
      if pyTruthy success then
        let s1 := { s with push_doc_result := result, loan_data := result }
        match (do
            let _ ← pyDictGet result "message" (Json.str "N/A")
            let df ← pyDictGet result "docrepo_fields" (Json.obj [])
            if pyTruthy df then do
              let _ ← pyDictGet df "taskId" (Json.str "N/A")
              let _ ← pyDictGet df "loanId" (Json.str "N/A")
              let sr ← pyDictGet df "submission_result" (Json.obj [])
              if pyTruthy sr then do
                let _ ← pyDictGet sr "success" (Json.bool false)
                let _ ← pyDictGet sr "status_code" (Json.str "N/A")
                pure ()
              else pure ()
            else pure ()) with
        | Except.error e =>
          { s1 with current_node := 4, status := "Error", loan_data := Json.obj [("error", Json.str e)] }
        | Except.ok _ =>
          { s1 with status := "Success", current_node := 5 }
      else
        match pyDictGet result "error" (Json.str "Unknown error") with
        | Except.error e =>
          { s with current_node := 4, status := "Error", loan_data := Json.obj [("error", Json.str e)] }
        | Except.ok errv =>
          { s with status := "Error",
                   push_doc_result := Json.obj [("error", errv)],
                   loan_data := Json.obj [("error", errv)],
                   current_node := 4 }

/-! ### Node 5: `workflow_summary_node` (lines 672-710) -/

/-- The list comprehension `[doc for doc in docs if doc.get("success", False)]`
restricted to a success-flag count; `doc.get` raises on non-dict entries. -/
def pyCountBySuccess (want : Bool) : List Json → Except String Nat
  | [] => Except.ok 0
  | d :: ds => do
    let v ← pyDictGet d "success" (Json.bool false)
    let rest ← pyCountBySuccess want ds
    pure (if pyTruthy v = want then rest + 1 else rest)

/-- The fallible entries of the summary dict (lines 675-686), evaluated in
the dict-literal order.  Each success flag evaluates the stage result's
truthiness first, then `.get("success", False)` (the Python conditional
expression); the document counts re-run the comprehensions. -/
def summaryFields (s : State) : Except String (Json × Json × Json × Json × Nat × Nat) := do
  let a ← if pyTruthy s.pull_data_result then
            pyDictGet s.pull_data_result "success" (Json.bool false)
          else pure (Json.bool false)
  let b ← if !s.pull_doc_results.isEmpty then do
            let n ← pyCountBySuccess true s.pull_doc_results
            pure (Json.bool (decide (n > 0)))
          else pure (Json.bool false)
  let c ← if pyTruthy s.push_data_result then
            pyDictGet s.push_data_result "success" (Json.bool false)
          else pure (Json.bool false)
  let d ← if pyTruthy s.push_doc_result then
            pyDictGet s.push_doc_result "success" (Json.bool false)
          else pure (Json.bool false)
  let sd ← if !s.pull_doc_results.isEmpty then pyCountBySuccess true s.pull_doc_results
           else pure 0
  let fd ← if !s.pull_doc_results.isEmpty then pyCountBySuccess false s.pull_doc_results
           else pure 0
  pure (a, b, c, d, sd, fd)

/-- `workflow_summary_node` (lines 672-710): pure aggregation; its `except`
(lines 707-710) replaces `workflow_summary` with an error record but leaves
`status` and every other field untouched. -/
def workflow_summary_node (now : String) (s : State) : State :=
  match summaryFields s with
  | Except.ok (a, b, c, d, sd, fd) =>
    let dp : Nat := if !s.pull_doc_results.isEmpty then s.pull_doc_results.length else 0
    let summary := Json.obj
      [("workflow_status", Json.str s.status),
       ("total_nodes_completed", Json.num (Int.ofNat s.current_node)),
       ("pull_data_success", a), ("pull_doc_success", b),
       ("push_data_success", c), ("push_doc_success", d),
       ("documents_processed", Json.num (Int.ofNat dp)),
       ("successful_documents", Json.num (Int.ofNat sd)),
       ("failed_documents", Json.num (Int.ofNat fd)),
       ("timestamp", Json.str now)]
    { s with workflow_summary := summary, loan_data := summary }
  | Except.error e => { s with workflow_summary := Json.obj [("error", Json.str e)] }

/-! ### The compiled graph (lines 719-739)

`pull_doc` is not wired in: its `add_node`/`add_edge` lines are commented
out, so the compiled path is
`extract_input → pull_data → push_data → push_doc → summary`. -/

/-- The external capabilities the compiled workflow consumes. -/
structure Caps where
  loanGet : GetCap
  dataPost : PostCap
  docPush : PushDocCap

/-- One run of the compiled graph on raw user input (`now` stands for the
wall-clock timestamps, which no verified property inspects). -/
def runPipeline (caps : Caps) (cfg : Config) (now : String) (input : String) : State :=
  workflow_summary_node now
    (push_doc_node caps.docPush cfg
      (push_data_node caps.dataPost cfg
        (pull_data_node caps.loanGet cfg
          (extract_input_fields cfg (State.init input)))))

/-! ### Helper lemmas -/

@[simp] theorem exceptOk_bind {α β ε : Type} (a : α) (f : α → Except ε β) :
    (Except.ok a >>= f) = f a := rfl

@[simp] theorem exceptError_bind {α β ε : Type} (e : ε) (f : α → Except ε β) :
    ((Except.error e : Except ε α) >>= f) = Except.error e := rfl

@[simp] theorem exceptPure_eq {α ε : Type} (a : α) :
    (pure a : Except ε α) = Except.ok a := rfl

theorem pyDictGet_success_hit (b : Json) (rest : List (String × Json)) (d : Json) :
    pyDictGet (Json.obj (("success", b) :: rest)) "success" d = Except.ok b := rfl

theorem pyDictGet_raw_hit (b r : Json) (rest : List (String × Json)) (d : Json) :
    pyDictGet (Json.obj (("success", b) :: ("raw", r) :: rest)) "raw" d = Except.ok r := rfl

/-- Every path of the extract node sets `current_node = 1`. -/
theorem extract_cn (cfg : Config) (s : State) :
    (extract_input_fields cfg s).current_node = 1 := by
  unfold extract_input_fields
  repeat' (first | rfl | (dsimp only) | split)

/-- Every path of the pull-loan-data node sets `current_node = 2`. -/
theorem pull_data_cn (get : GetCap) (cfg : Config) (s : State) :
    (pull_data_node get cfg s).current_node = 2 := by
  unfold pull_data_node
  repeat' (first | rfl | (dsimp only) | split)

/-- Every path of the push-field-updates node sets `current_node` to 3 or 4. -/
theorem push_data_cn (post : PostCap) (cfg : Config) (s : State) :
    (push_data_node post cfg s).current_node = 3
    ∨ (push_data_node post cfg s).current_node = 4 := by
  unfold push_data_node
  dsimp only
  repeat' split
  all_goals simp

/-- Every path of the push-submission node sets `current_node` to 4 or 5. -/
theorem push_doc_cn (cap : PushDocCap) (cfg : Config) (s : State) :
    (push_doc_node cap cfg s).current_node = 4
    ∨ (push_doc_node cap cfg s).current_node = 5 := by
  unfold push_doc_node
  repeat' split
  all_goals simp

/-- The summary node never changes `current_node`. -/
theorem summary_cn (now : String) (s : State) :
    (workflow_summary_node now s).current_node = s.current_node := by
  unfold workflow_summary_node
  repeat' split
  all_goals rfl

/-- The summary node always writes an object into `workflow_summary`. -/
theorem summary_writes_obj (now : String) (s : State) :
    (workflow_summary_node now s).workflow_summary.isObj = true := by
  unfold workflow_summary_node
  repeat' split
  all_goals rfl

/-- Behaviour of `extract_input_fields` under an invalid configuration:
`validate_environment` raises inside the node's `try`, the handler records
the error. -/
theorem extract_err_char (cfg : Config) (s : State) (e : String)
    (hv : validate_environment cfg = Except.error e) :
    extract_input_fields cfg s = { s with current_node := 1, status := "Error" } := by
  unfold extract_input_fields
  rw [hv]

/-- Behaviour of `extract_input_fields` on empty `user_input`. -/
theorem extract_empty_char (cfg : Config) (s : State) (u : Unit)
    (hv : validate_environment cfg = Except.ok u) (hu : s.user_input = "") :
    extract_input_fields cfg s =
      { s with status := "Error",
               loan_data := Json.obj [("error", Json.str "No user_input provided")],
               current_node := 1 } := by
  unfold extract_input_fields
  rw [hv]
  dsimp only
  rw [if_neg (by simp [hu])]

/-- Behaviour of `extract_input_fields` on nonempty `user_input` under a
valid configuration. -/
theorem extract_ok_char (cfg : Config) (s : State) (u : Unit)
    (hv : validate_environment cfg = Except.ok u) (hu : s.user_input ≠ "") :
    extract_input_fields cfg s =
      match extractFrom (match jsonLoads s.user_input with
          | Except.ok j => j
          | Except.error _ => Json.obj []) s with
      | Except.ok s2 => { s2 with status := "Success", current_node := 1 }
      | Except.error _ => { s with current_node := 1, status := "Error" } := by
  unfold extract_input_fields
  rw [hv]
  dsimp only
  rw [if_pos hu]

/-- The extraction update never touches `user_input`. -/
theorem applyObj_user_input (kvs : List (String × Json)) (s : State) :
    (applyObj kvs s).user_input = s.user_input := rfl

/-- Re-running the extraction update (after the status/position writes of the
node) changes nothing: every extracted field is overwritten with the same
value and every other field is kept. -/
theorem applyObj_stable (kvs : List (String × Json)) (s : State) (st : String) (cn : Nat) :
    applyObj kvs { applyObj kvs s with status := st, current_node := cn }
      = { applyObj kvs s with status := st, current_node := cn } := by
  apply State.ext <;> simp only [applyObj] <;> (try rfl) <;> (split <;> simp_all)

/-- `extractFrom` preserves `user_input` on success. -/
theorem extractFrom_user_input (d : Json) (s s2 : State) (h : extractFrom d s = Except.ok s2) :
    s2.user_input = s.user_input := by
  cases d <;> simp only [extractFrom] at h
  · exact absurd h (by simp)
  · exact absurd h (by simp)
  · exact absurd h (by simp)
  · split at h
    · exact absurd h (by simp)
    · cases h; rfl
  · split at h
    · exact absurd h (by simp)
    · cases h; rfl
  · cases h; rfl

/-- Whether `extractFrom` raises depends only on the decoded document, not
on the state. -/
theorem extractFrom_error_stable (d : Json) (s : State) (e : String)
    (h : extractFrom d s = Except.error e) (s2 : State) :
    extractFrom d s2 = Except.error e := by
  cases d <;> simp only [extractFrom] at h ⊢
  · exact h
  · exact h
  · exact h
  · split at h
    · split
      · exact h
      · simp_all
    · exact absurd h (by simp)
  · split at h
    · split
      · exact h
      · simp_all
    · exact absurd h (by simp)
  · exact absurd h (by simp)

/-- A second extraction pass over an already-extracted state is the
identity. -/
theorem extractFrom_absorb (d : Json) (s s2 : State) (h : extractFrom d s = Except.ok s2)
    (st : String) (cn : Nat) :
    extractFrom d { s2 with status := st, current_node := cn }
      = Except.ok { s2 with status := st, current_node := cn } := by
  cases d <;> simp only [extractFrom] at h ⊢
  · exact absurd h (by simp)
  · exact absurd h (by simp)
  · exact absurd h (by simp)
  · split at h
    · exact absurd h (by simp)
    · simp_all
  · split at h
    · exact absurd h (by simp)
    · simp_all
  · cases h
    exact congrArg Except.ok (applyObj_stable _ _ _ _)

/-- Members of a dict after `d[k] = v` come from the old dict or are the new
binding. -/
theorem dictSet_mem (fu : List (String × Json)) (k : String) (v : Json) (p : String × Json)
    (hp : p ∈ dictSet fu k v) : p ∈ fu ∨ p = (k, v) := by
  unfold dictSet at hp
  split at hp
  · rcases List.mem_map.mp hp with ⟨q, hq, hqe⟩
    by_cases h : q.1 == k
    · right; rw [← hqe]; simp [h]
    · left; rw [← hqe]; simp [h]; exact hq
  · rcases List.mem_append.mp hp with h | h
    · left; exact h
    · right; simpa using h

/-- A guarded mapping step only ever inserts truthy values. -/
theorem addIfTruthy_inv (src : Json) (k fid : String) (fu fu2 : List (String × Json))
    (h : addIfTruthy src k fid fu = Except.ok fu2)
    (hinv : ∀ p ∈ fu, pyTruthy p.2 = true) : ∀ p ∈ fu2, pyTruthy p.2 = true := by
  unfold addIfTruthy at h
  cases hg : pyDictGet src k Json.null with
  | error e => rw [hg] at h; simp at h
  | ok v =>
    rw [hg] at h
    simp only [exceptOk_bind] at h
    by_cases hv : pyTruthy v
    · rw [if_pos hv] at h
      simp only [exceptPure_eq, Except.ok.injEq] at h
      subst h
      intro p hp
      rcases dictSet_mem fu fid v p hp with hin | he
      · exact hinv p hin
      · rw [he]; exact hv
    · rw [if_neg hv] at h
      simp only [exceptPure_eq, Except.ok.injEq] at h
      subst h
      exact hinv

/-- The borrower-field mapping only ever inserts truthy values. -/
theorem deriveFromBorrower_inv (mb : Json) (fu fu2 : List (String × Json))
    (h : deriveFromBorrower mb fu = Except.ok fu2)
    (hinv : ∀ p ∈ fu, pyTruthy p.2 = true) : ∀ p ∈ fu2, pyTruthy p.2 = true := by
  unfold deriveFromBorrower at h
  cases h1 : addIfTruthy mb "first_name" "4000" fu with
  | error e => rw [h1] at h; simp at h
  | ok fuA =>
  rw [h1] at h; simp only [exceptOk_bind] at h
  cases h2 : addIfTruthy mb "middle_name" "4001" fuA with
  | error e => rw [h2] at h; simp at h
  | ok fuB =>
  rw [h2] at h; simp only [exceptOk_bind] at h
  cases h3 : addIfTruthy mb "last_name" "4002" fuB with
  | error e => rw [h3] at h; simp at h
  | ok fuC =>
  rw [h3] at h; simp only [exceptOk_bind] at h
  cases h4 : addIfTruthy mb "email" "1204" fuC with
  | error e => rw [h4] at h; simp at h
  | ok fuD =>
  rw [h4] at h; simp only [exceptOk_bind] at h
  cases h5 : addIfTruthy mb "ssn" "65" fuD with
  | error e => rw [h5] at h; simp at h
  | ok fuE =>
  rw [h5] at h; simp only [exceptOk_bind] at h
  exact addIfTruthy_inv _ _ _ _ _ h
    (addIfTruthy_inv _ _ _ _ _ h5
      (addIfTruthy_inv _ _ _ _ _ h4
        (addIfTruthy_inv _ _ _ _ _ h3
          (addIfTruthy_inv _ _ _ _ _ h2
            (addIfTruthy_inv _ _ _ _ _ h1 hinv)))))

/-- The borrower block only ever inserts truthy values. -/
theorem deriveBorrowerPart_inv (borrowers : Json) (fuM : List (String × Json))
    (h : deriveBorrowerPart borrowers = Except.ok fuM) : ∀ p ∈ fuM, pyTruthy p.2 = true := by
  unfold deriveBorrowerPart at h
  by_cases hbt : pyTruthy borrowers
  · rw [if_pos hbt] at h
    cases hit : pyIter borrowers with
    | error e => rw [hit] at h; simp at h
    | ok items =>
    rw [hit] at h; simp only [exceptOk_bind] at h
    cases hfm : findMain items with
    | error e => rw [hfm] at h; simp at h
    | ok mOpt =>
    rw [hfm] at h; simp only [exceptOk_bind] at h
    have hmb : ∀ (mb : Json),
        (pyDictGet mb "first_name" Json.null >>= fun _ =>
          pyDictGet mb "last_name" Json.null >>= fun _ =>
          deriveFromBorrower mb []) = Except.ok fuM →
        ∀ p ∈ fuM, pyTruthy p.2 = true := by
      intro mb hmbx
      cases hg1 : pyDictGet mb "first_name" Json.null with
      | error e => rw [hg1] at hmbx; simp at hmbx
      | ok v1 =>
      rw [hg1] at hmbx; simp only [exceptOk_bind] at hmbx
      cases hg2 : pyDictGet mb "last_name" Json.null with
      | error e => rw [hg2] at hmbx; simp at hmbx
      | ok v2 =>
      rw [hg2] at hmbx; simp only [exceptOk_bind] at hmbx
      exact deriveFromBorrower_inv _ _ _ hmbx (by intro p hp; simp at hp)
    cases mOpt with
    | some b =>
      exact hmb b (by simpa using h)
    | none =>
      cases hix : pyIndexNat borrowers 0 with
      | error e => rw [hix] at h; simp at h
      | ok b =>
        rw [hix] at h; simp only [exceptOk_bind] at h
        exact hmb b h
  · rw [if_neg hbt] at h
    simp only [exceptPure_eq, Except.ok.injEq] at h
    subst h
    intro p hp
    simp at hp

/-- Every value of a successfully derived field-update mapping is truthy
(present and non-empty in the source record). -/
theorem deriveFieldUpdates_inv (li : Json) (fu2 : List (String × Json))
    (h : deriveFieldUpdates li = Except.ok fu2) : ∀ p ∈ fu2, pyTruthy p.2 = true := by
  unfold deriveFieldUpdates at h
  cases hb : pyDictGet li "borrowers_attributes" (Json.arr []) with
  | error e => rw [hb] at h; simp at h
  | ok borrowers =>
  rw [hb] at h; simp only [exceptOk_bind] at h
  cases hm : deriveBorrowerPart borrowers with
  | error e => rw [hm] at h; simp at h
  | ok fuM =>
  rw [hm] at h; simp only [exceptOk_bind] at h
  have hMinv := deriveBorrowerPart_inv _ _ hm
  cases hA : addIfTruthy li "address1" "FR0126" fuM with
  | error e => rw [hA] at h; simp at h
  | ok fuA =>
  rw [hA] at h; simp only [exceptOk_bind] at h
  cases hB : addIfTruthy li "city" "FR0106" fuA with
  | error e => rw [hB] at h; simp at h
  | ok fuB =>
  rw [hB] at h; simp only [exceptOk_bind] at h
  cases hC : addIfTruthy li "state" "FR0107" fuB with
  | error e => rw [hC] at h; simp at h
  | ok fuC =>
  rw [hC] at h; simp only [exceptOk_bind] at h
  exact addIfTruthy_inv _ _ _ _ _ h
    (addIfTruthy_inv _ _ _ _ _ hC
      (addIfTruthy_inv _ _ _ _ _ hB
        (addIfTruthy_inv _ _ _ _ _ hA hMinv)))

/-! ### Concrete scenarios -/

/-- A loan-pull HTTP capability answering 200 with the given JSON body. -/
def loanGetReturning (j : Json) : GetCap :=
  fun _ => Except.ok { status := 200, jsonBody := Except.ok j }

/-- A fully populated configuration. -/
def cfgOK : Config :=
  { ESFUSE_TOKEN := "tok", LOAN_API_BASE_URL := "http://loan", DOC_API_BASE_URL := "http://doc",
    ENCOMPASS_BASE_URL := "http://enc", ENCOMPASS_ACCESS_TOKEN := "acc",
    TASKDOC_API_TOKEN := "td1", TASKDOC_AUTH_TOKEN := "td2" }

/-- The end-to-end scenario input of the spec. -/
def c1Input : String :=
  "\x7b\"loan_id\":\"25\",\"client_id\":\"loan_25\",\"document_ids\":\"[953]\"\x7d"

/-- A loan payload whose only borrower is Jane Doe. -/
def janeDoeRaw : Json :=
  Json.obj [("loaninfo", Json.obj [("borrowers_attributes",
    Json.arr [Json.obj [("first_name", Json.str "Jane"), ("last_name", Json.str "Doe")]])])]

/-- Adapters for the end-to-end scenario: the loan adapter returns the Jane
Doe payload, the push adapters succeed. -/
def c1Caps : Caps :=
  { loanGet := fun _ => Except.ok { jsonBody := Except.ok janeDoeRaw },
    dataPost := fun _ _ => Except.ok { jsonBody := Except.ok (Json.obj []) },
    docPush := fun _ => Except.ok (Json.obj [("success", Json.bool true), ("message", Json.str "ok")]) }

/-- Adapters that all raise (transport failure everywhere). -/
def failCaps : Caps :=
  { loanGet := fun _ => Except.error "ConnectionError",
    dataPost := fun _ _ => Except.error "ConnectionError",
    docPush := fun _ => Except.error "ConnectionError" }

/-! ### Claim theorems -/

/-- C8: the extract-input node is idempotent — for every `user_input` (and
every starting state and configuration), running `extract_input_fields`
twice in succession produces a state identical to running it once. -/
theorem c8_extract_idempotent (cfg : Config) (s : State) :
    extract_input_fields cfg (extract_input_fields cfg s) = extract_input_fields cfg s := by
  cases hv : validate_environment cfg with
  | error e =>
    rw [extract_err_char cfg _ e hv, extract_err_char cfg _ e hv]
  | ok u =>
    by_cases hu : s.user_input = ""
    · rw [extract_empty_char cfg s u hv hu]
      exact extract_empty_char cfg _ u hv hu
    · cases hx : extractFrom (match jsonLoads s.user_input with
          | Except.ok j => j
          | Except.error _ => Json.obj []) s with
      | ok s2 =>
        have h1 : extract_input_fields cfg s = { s2 with status := "Success", current_node := 1 } := by
          rw [extract_ok_char cfg s u hv hu, hx]
        rw [h1]
        have hui : s2.user_input = s.user_input := extractFrom_user_input _ _ _ hx
        have hu2 : ({ s2 with status := "Success", current_node := 1 } : State).user_input ≠ "" := by
          show s2.user_input ≠ ""
          rw [hui]; exact hu
        rw [extract_ok_char cfg _ u hv hu2]
        have hd2 : (match jsonLoads ({ s2 with status := "Success", current_node := 1 } : State).user_input with
            | Except.ok j => j
            | Except.error _ => Json.obj [])
            = (match jsonLoads s.user_input with
            | Except.ok j => j
            | Except.error _ => Json.obj []) := by
          show (match jsonLoads s2.user_input with
            | Except.ok j => j
            | Except.error _ => Json.obj []) = _
          rw [hui]
        rw [hd2, extractFrom_absorb _ _ _ hx]
      | error e =>
        have h1 : extract_input_fields cfg s = { s with current_node := 1, status := "Error" } := by
          rw [extract_ok_char cfg s u hv hu, hx]
        rw [h1]
        have hu2 : ({ s with current_node := 1, status := "Error" } : State).user_input ≠ "" := hu
        rw [extract_ok_char cfg _ u hv hu2]
        have hd2 : (match jsonLoads ({ s with current_node := 1, status := "Error" } : State).user_input with
            | Except.ok j => j
            | Except.error _ => Json.obj [])
            = (match jsonLoads s.user_input with
            | Except.ok j => j
            | Except.error _ => Json.obj []) := rfl
        rw [hd2, extractFrom_error_stable _ _ _ hx]

/-- C9: `current_node` is monotonically non-decreasing along the compiled
node sequence, for every input, configuration and adapter behaviour
(including raising adapters), in success and error paths alike. -/
theorem c9_current_node_monotone (caps : Caps) (cfg : Config) (now input : String) :
    (State.init input).current_node
        ≤ (extract_input_fields cfg (State.init input)).current_node
    ∧ (extract_input_fields cfg (State.init input)).current_node
        ≤ (pull_data_node caps.loanGet cfg
            (extract_input_fields cfg (State.init input))).current_node
    ∧ (pull_data_node caps.loanGet cfg
          (extract_input_fields cfg (State.init input))).current_node
        ≤ (push_data_node caps.dataPost cfg (pull_data_node caps.loanGet cfg
            (extract_input_fields cfg (State.init input)))).current_node
    ∧ (push_data_node caps.dataPost cfg (pull_data_node caps.loanGet cfg
          (extract_input_fields cfg (State.init input)))).current_node
        ≤ (push_doc_node caps.docPush cfg (push_data_node caps.dataPost cfg
            (pull_data_node caps.loanGet cfg
              (extract_input_fields cfg (State.init input))))).current_node
    ∧ (push_doc_node caps.docPush cfg (push_data_node caps.dataPost cfg
          (pull_data_node caps.loanGet cfg
            (extract_input_fields cfg (State.init input))))).current_node
        ≤ (workflow_summary_node now (push_doc_node caps.docPush cfg
            (push_data_node caps.dataPost cfg (pull_data_node caps.loanGet cfg
              (extract_input_fields cfg (State.init input)))))).current_node := by
  have h0 : (State.init input).current_node = 0 := rfl
  have h1 := extract_cn cfg (State.init input)
  have h2 := pull_data_cn caps.loanGet cfg (extract_input_fields cfg (State.init input))
  have h5 := summary_cn now (push_doc_node caps.docPush cfg (push_data_node caps.dataPost cfg
    (pull_data_node caps.loanGet cfg (extract_input_fields cfg (State.init input)))))
  rcases push_data_cn caps.dataPost cfg (pull_data_node caps.loanGet cfg
      (extract_input_fields cfg (State.init input))) with h3 | h3 <;>
    rcases push_doc_cn caps.docPush cfg (push_data_node caps.dataPost cfg
      (pull_data_node caps.loanGet cfg (extract_input_fields cfg (State.init input)))) with h4 | h4 <;>
    refine ⟨?_, ?_, ?_, ?_, ?_⟩ <;>
    omega

/-- C3: error containment.  A raising loan-pull adapter is converted by
`pull_data_node` into `status="Error"` with the error payload recorded in
`pull_data_result`/`loan_data`; likewise for `push_data_node`; a raising
submission capability is caught by `push_doc_node` and recorded in
`loan_data`; and for every input and adapter behaviour the run still
reaches the terminal summary node (`current_node` ends at 4 or above and
`workflow_summary` is always written as an object), so no exception escapes
any node and nodes after an error still run. -/
theorem c3_error_containment :
    (∀ (e : String) (cfg : Config) (s : State),
        pull_data_node (fun _ => Except.error e) cfg s =
          { s with status := "Error",
                   pull_data_result := Json.obj [("error", Json.str ("API request failed: " ++ e))],
                   loan_data := Json.obj [("error", Json.str ("API request failed: " ++ e))],
                   current_node := 2 })
    ∧ (∀ (e : String) (cfg : Config) (s : State),
        push_data_node (fun _ _ => Except.error e) cfg s =
          { s with status := "Error",
                   push_data_result := Json.obj [("error", Json.str ("Push data error: " ++ e))],
                   loan_data := Json.obj [("error", Json.str ("Push data error: " ++ e))],
                   current_node := 4 })
    ∧ (∀ (e : String) (cfg : Config) (s : State), ∃ m,
        push_doc_node (fun _ => Except.error e) cfg s =
          { s with current_node := 4, status := "Error",
                   loan_data := Json.obj [("error", Json.str m)] })
    ∧ (∀ (caps : Caps) (cfg : Config) (now input : String),
        4 ≤ (runPipeline caps cfg now input).current_node
        ∧ (runPipeline caps cfg now input).workflow_summary.isObj = true) := by
  refine ⟨fun e cfg s => rfl, fun e cfg s => rfl, fun e cfg s => ?_, fun caps cfg now input => ?_⟩
  · unfold push_doc_node
    cases hi : pushDocIds s with
    | ok ids => exact ⟨e, by simp only [exceptOk_bind]⟩
    | error e2 => exact ⟨e2, by simp only [exceptError_bind]⟩
  · constructor
    · unfold runPipeline
      rw [summary_cn]
      rcases push_doc_cn caps.docPush cfg (push_data_node caps.dataPost cfg
        (pull_data_node caps.loanGet cfg (extract_input_fields cfg (State.init input)))) with h | h <;>
        omega
    · exact summary_writes_obj _ _

/-- C4: field-mapping completeness of the pull-loan-data node.  (1) Every
entry of a successfully derived mapping has a truthy (present, non-empty)
value — absent fields are never emitted; (2) whenever the 200-response body
is an object whose `loaninfo` derivation succeeds, the node replaces
`state.field_updates` with exactly the derived mapping; (3) for a borrower
record with only `first_name` and `ssn` populated and no address fields,
the derived mapping is exactly `[("4000", first_name), ("65", ssn)]`. -/
theorem c4_field_mapping :
    (∀ (li : Json) (fu : List (String × Json)), deriveFieldUpdates li = Except.ok fu →
       ∀ p ∈ fu, pyTruthy p.2 = true)
    ∧ (∀ (cfg : Config) (s : State) (kvs : List (String × Json)) (li : Json)
         (fu : List (String × Json)),
        kvs.lookup "loaninfo" = some li → deriveFieldUpdates li = Except.ok fu →
        (pull_data_node (loanGetReturning (Json.obj kvs)) cfg s).field_updates = fu)
    ∧ (∀ fn ssn : String, fn ≠ "" → ssn ≠ "" →
        deriveFieldUpdates (Json.obj [("borrowers_attributes",
          Json.arr [Json.obj [("first_name", Json.str fn), ("ssn", Json.str ssn)]])])
          = Except.ok [("4000", Json.str fn), ("65", Json.str ssn)]) := by
  refine ⟨deriveFieldUpdates_inv, ?_, ?_⟩
  · intro cfg s kvs li fu hk hd
    have hne : kvs.isEmpty = false := by
      cases kvs with
      | nil => simp at hk
      | cons a tl => rfl
    unfold pull_data_node async_pull_loan_data loanGetReturning
    simp only [pyDictGet_success_hit, pyDictGet_raw_hit, exceptOk_bind, exceptPure_eq,
      pyTruthy, pyIn, pyIndex, hne, hk, hd, if_true, eq_self_iff_true, Bool.not_false,
      Option.isSome_some, ite_true]
  · intro fn ssn h1 h2
    have t1 : pyTruthy (Json.str fn) = true := by simp [pyTruthy, h1]
    have t2 : pyTruthy (Json.str ssn) = true := by simp [pyTruthy, h2]
    simp [deriveFieldUpdates, deriveBorrowerPart, deriveFromBorrower, findMain, addIfTruthy,
      pyDictGet, pyIter, pyIndexNat, pyTruthy, dictSet, List.lookup, t1, t2, h1, h2]

/-- Witness for C4 at a concrete borrower (`first_name="Jane"`, `ssn="123"`). -/
theorem c4_field_mapping_witness :
    deriveFieldUpdates (Json.obj [("borrowers_attributes",
        Json.arr [Json.obj [("first_name", Json.str "Jane"), ("ssn", Json.str "123")]])])
      = Except.ok [("4000", Json.str "Jane"), ("65", Json.str "123")]
    ∧ (pull_data_node (loanGetReturning (Json.obj [("loaninfo",
          Json.obj [("borrowers_attributes",
            Json.arr [Json.obj [("first_name", Json.str "Jane"), ("ssn", Json.str "123")]])])]))
        cfgOK (State.init "")).field_updates
      = [("4000", Json.str "Jane"), ("65", Json.str "123")]
    ∧ pyTruthy (Json.str "Jane") = true := by
  have hderive := c4_field_mapping.2.2 "Jane" "123" (by decide) (by decide)
  refine ⟨hderive, ?_, ?_⟩
  · exact c4_field_mapping.2.1 cfgOK (State.init "") _ _ _ rfl hderive
  · exact c4_field_mapping.1 _ _ hderive ("4000", Json.str "Jane") (by simp)

/-- C10 counterexample: the response body `\x7b"loaninfo": 5\x7d` has
`loaninfo` present, yet `field_updates` is NOT replaced by a derived
mapping — the malformed `loaninfo` raises inside the parse, the node takes
its exception path and the user-supplied entry survives. -/
theorem c10_frame_counterexample :
    (pull_data_node (loanGetReturning (Json.obj [("loaninfo", Json.num 5)])) cfgOK
        { State.init "" with field_updates := [("9", Json.str "x")] }).field_updates
      = [("9", Json.str "x")]
    ∧ (pull_data_node (loanGetReturning (Json.obj [("loaninfo", Json.num 5)])) cfgOK
        { State.init "" with field_updates := [("9", Json.str "x")] }).status
      = "Error" := ⟨rfl, rfl⟩

/-- C10 (amended): on adapter success, (1) a body without a `loaninfo` key
leaves `field_updates` unchanged; (2) when `loaninfo` is present and its
derivation succeeds, `field_updates` is replaced by the derived mapping,
even when that mapping is empty; (3) when `loaninfo` is present but its
derivation raises, the node errors and `field_updates` is also unchanged. -/
theorem c10_frame_amended (cfg : Config) (s : State) (kvs : List (String × Json)) :
    (kvs.lookup "loaninfo" = none →
      (pull_data_node (loanGetReturning (Json.obj kvs)) cfg s).field_updates = s.field_updates)
    ∧ (∀ (li : Json) (fu : List (String × Json)),
        kvs.lookup "loaninfo" = some li → deriveFieldUpdates li = Except.ok fu →
        (pull_data_node (loanGetReturning (Json.obj kvs)) cfg s).field_updates = fu)
    ∧ (∀ (li : Json) (e : String),
        kvs.lookup "loaninfo" = some li → deriveFieldUpdates li = Except.error e →
        (pull_data_node (loanGetReturning (Json.obj kvs)) cfg s).field_updates = s.field_updates
        ∧ (pull_data_node (loanGetReturning (Json.obj kvs)) cfg s).status = "Error") := by
  refine ⟨?_, ?_, ?_⟩
  · intro hk
    unfold pull_data_node async_pull_loan_data loanGetReturning
    cases hne : kvs.isEmpty with
    | true =>
      simp only [pyDictGet_success_hit, pyDictGet_raw_hit, exceptOk_bind, exceptPure_eq,
        pyTruthy, hne, if_true, eq_self_iff_true, Bool.not_true, ite_true, ite_false,
        Bool.false_eq_true, if_false]
    | false =>
      simp only [pyDictGet_success_hit, pyDictGet_raw_hit, exceptOk_bind, exceptPure_eq,
        pyTruthy, pyIn, hne, hk, if_true, eq_self_iff_true, Bool.not_false,
        Option.isSome_none, ite_true, ite_false, Bool.false_eq_true, if_false]
  · intro li fu hk hd
    have hne : kvs.isEmpty = false := by
      cases kvs with
      | nil => simp at hk
      | cons a tl => rfl
    unfold pull_data_node async_pull_loan_data loanGetReturning
    simp only [pyDictGet_success_hit, pyDictGet_raw_hit, exceptOk_bind, exceptPure_eq,
      pyTruthy, pyIn, pyIndex, hne, hk, hd, if_true, eq_self_iff_true, Bool.not_false,
      Option.isSome_some, ite_true]
  · intro li e hk hd
    have hne : kvs.isEmpty = false := by
      cases kvs with
      | nil => simp at hk
      | cons a tl => rfl
    unfold pull_data_node async_pull_loan_data loanGetReturning
    simp only [pyDictGet_success_hit, pyDictGet_raw_hit, exceptOk_bind, exceptPure_eq,
      pyTruthy, pyIn, pyIndex, hne, hk, hd, if_true, eq_self_iff_true, Bool.not_false,
      Option.isSome_some, ite_true]
    exact ⟨rfl, rfl⟩

/-- Witness for C10 (amended) at concrete inputs: a body without
`loaninfo` preserves the user entry; `loaninfo` whose derivation is empty
replaces the user entry with the empty mapping; malformed `loaninfo`
preserves the user entry and errors. -/
theorem c10_frame_witness :
    (pull_data_node (loanGetReturning (Json.obj [("x", Json.null)])) cfgOK
        { State.init "" with field_updates := [("9", Json.str "x")] }).field_updates
      = [("9", Json.str "x")]
    ∧ (pull_data_node (loanGetReturning (Json.obj [("loaninfo", Json.obj [("a", Json.null)])])) cfgOK
        { State.init "" with field_updates := [("9", Json.str "x")] }).field_updates
      = []
    ∧ (pull_data_node (loanGetReturning (Json.obj [("loaninfo", Json.num 5)])) cfgOK
        { State.init "" with field_updates := [("7", Json.str "y")] }).status
      = "Error" := by
  refine ⟨?_, ?_, ?_⟩
  · exact (c10_frame_amended cfgOK _ _).1 rfl
  · exact (c10_frame_amended cfgOK _ _).2.1 (Json.obj [("a", Json.null)]) [] rfl rfl
  · exact ((c10_frame_amended cfgOK { State.init "" with field_updates := [("7", Json.str "y")] }
      [("loaninfo", Json.num 5)]).2.2 (Json.num 5)
      "AttributeError: object has no attribute get" rfl rfl).2

/-- C5 counterexample: for `document_ids = "notjson"` (present but not
valid JSON), the push-submission node's document-id parse falls back to the
raw string wrapped in a list, NOT to the hardcoded default `[953]` the
claim asserts. -/
theorem c5_docids_parse_counterexample :
    pushDocIds { State.init "" with document_ids := "notjson" }
      = Except.ok [Json.str "notjson"]
    ∧ pushDocIds { State.init "" with document_ids := "notjson" }
      ≠ Except.ok [Json.num 953] := by
  constructor
  · rfl
  · intro h
    rw [show pushDocIds { State.init "" with document_ids := "notjson" }
        = Except.ok [Json.str "notjson"] from rfl] at h
    simp at h

/-- C5 (amended): in the push-submission node, (1) an absent (empty)
`document_ids` falls back to the single hardcoded default `[953]`; (2) a
non-empty but JSON-unparsable `document_ids` falls back to the raw string
wrapped in a singleton list; (3) a decoded JSON sequence is kept in order
with each entry coerced by `int(str(entry)) if str(entry).isdigit()`;
(4)-(5) numeric-looking string entries are coerced to integers and
non-numeric entries are left as-is. -/
theorem c5_docids_parse_amended (s : State) :
    (s.document_ids = "" → pushDocIds s = Except.ok [Json.num 953])
    ∧ (∀ e, s.document_ids ≠ "" → jsonLoads s.document_ids = Except.error e →
        pushDocIds s = Except.ok [Json.str s.document_ids])
    ∧ (∀ xs, s.document_ids ≠ "" → jsonLoads s.document_ids = Except.ok (Json.arr xs) →
        pushDocIds s = Except.ok (xs.map coerceDocId))
    ∧ (∀ t, pyIsdigit t = true → coerceDocId (Json.str t) = Json.num (digitsToInt t))
    ∧ (∀ t, pyIsdigit t = false → coerceDocId (Json.str t) = Json.str t) := by
  refine ⟨?_, ?_, ?_, ?_, ?_⟩
  · intro h
    simp [pushDocIds, h]
  · intro e h0 h
    simp [pushDocIds, h0, h]
  · intro xs h0 h
    simp [pushDocIds, h0, h, pyIter, Except.map]
  · intro t h
    simp [coerceDocId, pyStr, h]
  · intro t h
    simp [coerceDocId, pyStr, h]

/-- Witness for C5 (amended): empty `document_ids` yields `[953]`; the
mixed sequence `["7", "a", 12]` decodes with `"7"` coerced to `7`, `"a"`
kept, `12` kept; and the two coercion clauses at `"12"` and `"a"`. -/
theorem c5_docids_parse_witness :
    pushDocIds (State.init "") = Except.ok [Json.num 953]
    ∧ pushDocIds { State.init "" with document_ids := "[\"7\", \"a\", 12]" }
      = Except.ok [Json.num 7, Json.str "a", Json.num 12]
    ∧ coerceDocId (Json.str "12") = Json.num 12
    ∧ coerceDocId (Json.str "a") = Json.str "a" := by
  refine ⟨(c5_docids_parse_amended (State.init "")).1 rfl, ?_, ?_, ?_⟩
  · exact (c5_docids_parse_amended { State.init "" with document_ids := "[\"7\", \"a\", 12]" }).2.2.1
      [Json.str "7", Json.str "a", Json.num 12] (by decide) rfl
  · exact (c5_docids_parse_amended (State.init "")).2.2.2.1 "12" (by decide)
  · exact (c5_docids_parse_amended (State.init "")).2.2.2.2 "a" (by decide)

/-- C6: for every state whose `document_ids` is non-empty but malformed
JSON, `pull_doc_node` yields `status="Error"`, leaves `pull_doc_results`
exactly as it was (empty stays empty), and performs no per-document adapter
call — the result does not depend on the document adapter at all. -/
theorem c6_malformed_docids (get : GetCap) (cfg : Config) (now : String) (s : State) (e : String)
    (h1 : s.document_ids ≠ "") (h2 : jsonLoads s.document_ids = Except.error e) :
    (pull_doc_node get cfg now s).status = "Error"
    ∧ (pull_doc_node get cfg now s).pull_doc_results = s.pull_doc_results
    ∧ ∀ get2, pull_doc_node get2 cfg now s = pull_doc_node get cfg now s := by
  have hred : ∀ g : GetCap, pull_doc_node g cfg now s =
      { s with current_node := 2, status := "Error",
               loan_data := Json.obj [("error", Json.str e)] } := by
    intro g
    unfold pull_doc_node
    rw [if_pos h1, h2]
    simp only [exceptError_bind]
  exact ⟨by rw [hred get], by rw [hred get], fun get2 => by rw [hred get2, hred get]⟩

/-- Witness for C6 at `document_ids = "["` with a raising adapter. -/
theorem c6_malformed_docids_witness :
    (pull_doc_node (fun _ => Except.error "net") cfgOK "t"
        { State.init "" with document_ids := "[" }).status = "Error"
    ∧ (pull_doc_node (fun _ => Except.error "net") cfgOK "t"
        { State.init "" with document_ids := "[" }).pull_doc_results = [] := by
  have h := c6_malformed_docids (fun _ => Except.error "net") cfgOK "t"
    { State.init "" with document_ids := "[" } "Expecting value" (by decide) rfl
  exact ⟨h.1, h.2.1⟩

/-- C7: when `field_updates` is empty entering the push-field-updates node,
the mapping actually pushed is the single documented placeholder
`\x7b"4000": "DefaultTestValue"\x7d` — its serialized form is non-empty,
never the empty object — and the node's behaviour depends on the POST
capability only through that one call (url and placeholder-carrying body),
so that is exactly the payload sent downstream. -/
theorem c7_push_placeholder (cfg : Config) (s : State) (h : s.field_updates = []) :
    effectiveFieldUpdates s = [("4000", Json.str "DefaultTestValue")]
    ∧ pyJsonDumps (Json.obj (effectiveFieldUpdates s))
      = "\x7b\"4000\": \"DefaultTestValue\"\x7d"
    ∧ pyJsonDumps (Json.obj (effectiveFieldUpdates s)) ≠ "\x7b\x7d"
    ∧ ∀ (post post2 : PostCap),
        post (writeLoanUrl cfg.ENCOMPASS_BASE_URL cfg.ENCOMPASS_ACCESS_TOKEN)
             (pushDataBody (effectiveFieldUpdates s) s.loan_id)
          = post2 (writeLoanUrl cfg.ENCOMPASS_BASE_URL cfg.ENCOMPASS_ACCESS_TOKEN)
                  (pushDataBody (effectiveFieldUpdates s) s.loan_id)
        → push_data_node post cfg s = push_data_node post2 cfg s := by
  have he : effectiveFieldUpdates s = [("4000", Json.str "DefaultTestValue")] := by
    simp [effectiveFieldUpdates, h]
  refine ⟨he, by rw [he]; rfl, by rw [he]; decide, ?_⟩
  intro post post2 hpost
  unfold push_data_node async_push_data
  dsimp only
  rw [hpost]

/-- Witness for C7 at the default (empty) state. -/
theorem c7_push_placeholder_witness :
    effectiveFieldUpdates (State.init "") = [("4000", Json.str "DefaultTestValue")]
    ∧ pyJsonDumps (Json.obj (effectiveFieldUpdates (State.init "")))
      = "\x7b\"4000\": \"DefaultTestValue\"\x7d" := by
  have h := c7_push_placeholder cfgOK (State.init "") rfl
  exact ⟨h.1, h.2.1⟩

/-- C1 counterexample: in the end-to-end scenario (the spec's `user_input`,
a loan adapter returning borrower Jane Doe, succeeding push adapters), the
compiled workflow ends with `status="Success"` and the expected
`field_updates`, but `workflow_summary.documents_processed` is `0`, not `1`
as claimed — the compiled graph omits the pull-documents node (its
`add_node`/`add_edge` lines are commented out), so `pull_doc_results`
stays empty. -/
theorem c1_end_to_end_counterexample :
    objLookup (runPipeline c1Caps cfgOK "t" c1Input).workflow_summary "documents_processed"
      = some (Json.num 0)
    ∧ objLookup (runPipeline c1Caps cfgOK "t" c1Input).workflow_summary "documents_processed"
      ≠ some (Json.num 1)
    ∧ (runPipeline c1Caps cfgOK "t" c1Input).status = "Success" := by
  refine ⟨rfl, ?_, rfl⟩
  intro h
  rw [show objLookup (runPipeline c1Caps cfgOK "t" c1Input).workflow_summary "documents_processed"
      = some (Json.num 0) from rfl] at h
  simp at h

/-- C1 (amended): for the end-to-end scenario the compiled workflow's final
state has `status="Success"`, `field_updates = [("4000","Jane"),
("4002","Doe")]`, and `workflow_summary.documents_processed = 0` (the
compiled graph contains no pull-documents node, so no document is ever
processed regardless of the document adapter). -/
theorem c1_end_to_end_amended :
    (runPipeline c1Caps cfgOK "t" c1Input).status = "Success"
    ∧ (runPipeline c1Caps cfgOK "t" c1Input).field_updates
      = [("4000", Json.str "Jane"), ("4002", Json.str "Doe")]
    ∧ objLookup (runPipeline c1Caps cfgOK "t" c1Input).workflow_summary "documents_processed"
      = some (Json.num 0)
    ∧ objLookup (runPipeline c1Caps cfgOK "t" c1Input).workflow_summary "workflow_status"
      = some (Json.str "Success") := ⟨rfl, rfl, rfl, rfl⟩

/-- C2 counterexample: with every required configuration variable unset,
the first node still executes and returns normally — the
`validate_environment` error is caught inside `extract_input_fields` and
recorded as `status="Error"` — and the run continues through every node to
the terminal summary (which records the error status), instead of a fatal
error being raised before any node executes. -/
theorem c2_config_failfast_counterexample :
    extract_input_fields {} (State.init c1Input)
      = { State.init c1Input with current_node := 1, status := "Error" }
    ∧ objLookup (runPipeline failCaps {} "t" c1Input).workflow_summary "workflow_status"
      = some (Json.str "Error")
    ∧ (runPipeline failCaps {} "t" c1Input).workflow_summary.isObj = true := ⟨rfl, rfl, rfl⟩

/-- C2 (amended): for every configuration with at least one required
variable unset, `validate_environment` raises an error naming the full list
of missing keys, but the raise happens inside the first node's `try`:
`extract_input_fields` catches it and records `status="Error"` with
`current_node=1`, extracting nothing, and the run is not aborted. -/
theorem c2_config_failfast_amended (cfg : Config) (s : State) (h : missingVars cfg ≠ []) :
    validate_environment cfg
      = Except.error ("Missing required environment variables: " ++
          String.intercalate ", " (missingVars cfg))
    ∧ extract_input_fields cfg s = { s with current_node := 1, status := "Error" } := by
  have hv : validate_environment cfg
      = Except.error ("Missing required environment variables: " ++
          String.intercalate ", " (missingVars cfg)) := by
    unfold validate_environment
    rw [if_neg h]
  exact ⟨hv, extract_err_char cfg s _ hv⟩

/-- Witness for C2 (amended) at the empty configuration. -/
theorem c2_config_failfast_witness :
    validate_environment {}
      = Except.error ("Missing required environment variables: ESFUSE_TOKEN, LOAN_API_BASE_URL, DOC_API_BASE_URL, ENCOMPASS_BASE_URL, ENCOMPASS_ACCESS_TOKEN, TASKDOC_API_TOKEN, TASKDOC_AUTH_TOKEN")
    ∧ extract_input_fields {} (State.init "x")
      = { State.init "x" with current_node := 1, status := "Error" } := by
  have h := c2_config_failfast_amended {} (State.init "x") (by decide)
  exact ⟨h.1, h.2⟩
